import Mathlib

/-!
Verification of the synthetic_stack_futures Anchor program
(src/synthetic_stack_futures/src/lib.rs).

The program's arithmetic helpers and instruction handlers are embedded as
executable Lean functions.  Machine integers are modelled as `Nat`/`Int`
with explicit reductions where the Rust code narrows or wraps:
`as u16` becomes `% 2^16`, `as u64` becomes `% 2^64`, the `u128 → i128`
cast becomes a two's-complement reinterpretation, and the `checked_*`
operations return `Option` exactly where the Rust operations do.

Each instruction handler is embedded as a `*_body` function
`... → St → Except Fail Unit × St` that threads the account state through
the Rust function body line by line: an account mutation performed before
an early `return err!(...)` is visible in the returned state, just as it
is visible through the `&mut` borrow in Rust.  `runInstr` then applies the
transactional boundary of the surrounding runtime (not part of this
repository's sources): a failed instruction persists no account writes.
-/

namespace SSF

/-- 2^16, the size of the u16 value range. -/
def U16_MOD : ℕ := 2 ^ 16

/-- 2^64, the size of the u64 value range. -/
def U64_MOD : ℕ := 2 ^ 64

/-- 2^128, the size of the u128 value range. -/
def U128_MOD : ℕ := 2 ^ 128

/-- Rust `as u16` narrowing of a u128 value: keeps the low 16 bits. -/
def u16cast (n : ℕ) : ℕ := n % U16_MOD

/-- Rust `as u64` narrowing of a u128 value: keeps the low 64 bits. -/
def u64cast (n : ℕ) : ℕ := n % U64_MOD

/-- Rust `as i128` reinterpretation of a u128 value (two's complement). -/
def i128_of_u128 (n : ℕ) : ℤ :=
  if n < 2 ^ 127 then (n : ℤ) else (n : ℤ) - U128_MOD

/-- Rust `as u64` narrowing of an i128 value (two's complement, low 64 bits). -/
def u64_of_i128 (x : ℤ) : ℕ := (x % (U64_MOD : ℤ)).toNat

/-- Rust `u64::saturating_add`. -/
def sat_add_u64 (a b : ℕ) : ℕ := min (a + b) (U64_MOD - 1)

/-- Rust `u128::checked_mul` (inputs assumed in range; overflow yields `none`). -/
def checked_mul_u128 (a b : ℕ) : Option ℕ :=
  if a * b < U128_MOD then some (a * b) else none

/-- Rust `u128::checked_div`: `none` exactly when the divisor is zero. -/
def checked_div_u128 (a b : ℕ) : Option ℕ :=
  if b = 0 then none else some (a / b)

/-- `UNIT_DECIMALS` from lib.rs (size units precision 1e6). -/
def UNIT_DECIMALS : ℕ := 6

/-- `fn bps(amount: u128, bps: u16) -> Result<u128>` from lib.rs:
`amount.checked_mul(bps).and_then(|x| x.checked_div(10_000))`. -/
def bps (amount : ℕ) (rate : ℕ) : Option ℕ :=
  (checked_mul_u128 amount rate).bind (fun x => checked_div_u128 x 10000)

/-- `fn ratio_bps_u128(num: u128, denom: u128) -> Result<u128>` from lib.rs:
`num.checked_mul(10_000).and_then(|x| x.checked_div(denom))`. -/
def ratio_bps_u128 (num denom : ℕ) : Option ℕ :=
  (checked_mul_u128 num 10000).bind (fun x => checked_div_u128 x denom)

/-- `fn pow10_u128(p: u32) -> Option<u128>`: `10u128.pow(p)`.  The Rust
power overflows the u128 range for `p ≥ 39` (aborting the computation),
modelled as `none`. -/
def pow10_u128 (p : ℕ) : Option ℕ :=
  if 10 ^ p < U128_MOD then some (10 ^ p) else none

/-- `fn scale_amount(amount: u128, from_dec: u32, to_dec: u32) -> Result<u128>`
from lib.rs: divide (truncating) when shrinking precision, checked-multiply
when growing it. -/
def scale_amount (amount from_dec to_dec : ℕ) : Option ℕ :=
  if from_dec = to_dec then some amount
  else if from_dec > to_dec then
    (pow10_u128 (from_dec - to_dec)).bind (fun d => checked_div_u128 amount d)
  else
    (pow10_u128 (to_dec - from_dec)).bind (fun m => checked_mul_u128 amount m)

/-- `fn notional_quote(size_units, nav_price, price_decimals, quote_decimals)`
from lib.rs: `scale_amount(size * nav, UNIT_DECIMALS + price_decimals,
quote_decimals)` with a checked multiply. -/
def notional_quote (size_units nav_price price_decimals quote_decimals : ℕ) : Option ℕ :=
  (checked_mul_u128 size_units nav_price).bind
    (fun prod => scale_amount prod (UNIT_DECIMALS + price_decimals) quote_decimals)

/-- `fn pnl_quote(size_units, entry_nav, close_nav, price_decimals,
quote_decimals) -> Result<i128>` from lib.rs.  `diff` is the signed NAV
difference (the i128 `saturating_sub` cannot saturate on u64 inputs), the
magnitude is scaled, and the sign of `diff` is reapplied; the Rust
`scaled as i128` cast is the two's-complement reinterpretation. -/
def pnl_quote (size_units entry_nav close_nav price_decimals quote_decimals : ℕ) : Option ℤ :=
  let diff : ℤ := (close_nav : ℤ) - (entry_nav : ℤ)
  (checked_mul_u128 diff.natAbs size_units).bind
    (fun mag =>
      (scale_amount mag (UNIT_DECIMALS + price_decimals) quote_decimals).map
        (fun scaled => if 0 ≤ diff then i128_of_u128 scaled else -(i128_of_u128 scaled)))

/-- The short side's PnL as the program computes it: `liquidate` (lib.rs
line 404) and `liquidate_to_im` (line 520) subtract `pnl_long` from the
short vault balance, i.e. the short PnL is the negation of `pnl_quote`. -/
def pnl_short_quote (size_units entry_nav close_nav price_decimals quote_decimals : ℕ) : Option ℤ :=
  (pnl_quote size_units entry_nav close_nav price_decimals quote_decimals).map (fun x => -x)

/-- `fn clamp_i128(x, lo, hi)` from lib.rs. -/
def clamp_i128 (x lo hi : ℤ) : ℤ :=
  if x < lo then lo else if x > hi then hi else x

/-- The error enum of lib.rs (`#[error_code] pub enum ErrorCode`). -/
inductive ErrorCode where
  | MathOverflow
  | MarketPaused
  | Unauthorized
  | ZeroSize
  | PriceNotSet
  | ClockWentBackwards
  | PriceStale
  | InsufficientMargin
  | NotOpen
  | AlreadyOpen
  | NotLiquidatable
  | LeverageTooHigh
  | OracleConfidenceTooWide
  | PriceJumpTooLarge
  | CircuitBreaker
  | NoPendingParams
  | TimelockNotExpired
  | NotEnoughSigners
deriving DecidableEq

/-- How an instruction can fail: a program `ErrorCode`, an SPL-token
transfer rejected for insufficient funds, a Rust panic (the
`try_into().unwrap()` in `open_deal`), a failing Anchor `init`
constraint (account already exists), or a missing required account. -/
inductive Fail where
  | prog : ErrorCode → Fail
  | tokenInsufficient
  | panicked
  | acctExists
  | acctMissing
deriving DecidableEq

/-- The `Market` account of lib.rs (fields used by the modelled
instructions; pubkeys are modelled as naturals, `Pubkey::default()` as 0). -/
structure Market where
  authority : ℕ
  oracle_authority : ℕ
  price_decimals : ℕ
  quote_decimals : ℕ
  initial_margin_bps : ℕ
  maintenance_margin_bps : ℕ
  fee_bps : ℕ
  liquidator_bps : ℕ
  price_stale_seconds : ℕ
  last_nav : ℕ
  last_ts : ℤ
  paused : Bool
  max_leverage_bps : ℕ
  max_nav_jump_bps : ℕ
  max_confidence_bps : ℕ
  circuit_breaker_until : ℤ
  mm_buffer_bps : ℕ
  admin_threshold : ℕ
  admins : List ℕ
deriving DecidableEq

/-- The `Deal` account of lib.rs. -/
structure Deal where
  long : ℕ
  short : ℕ
  size : ℕ
  entry_nav : ℕ
  is_open : Bool
  long_margin : ℕ
  short_margin : ℕ
  client_order_id : ℕ
deriving DecidableEq

/-- The account state touched by the modelled instructions: the market,
the (at most one) deal record, and the token balances of the two margin
vaults, the parties' source and payout token accounts, the fee vault and
the liquidator's token account. -/
structure St where
  market : Market
  deal : Option Deal
  long_vault : ℕ
  short_vault : ℕ
  long_source : ℕ
  short_source : ℕ
  fee_vault : ℕ
  long_payout_ata : ℕ
  short_payout_ata : ℕ
  liquidator_ata : ℕ
deriving DecidableEq

/-- `fn ensure_price_fresh(m: &Market)` from lib.rs: circuit-breaker
window, price-set, clock-regression and staleness checks.  (The i64
`saturating_sub` is exact for in-range timestamps.) -/
def ensure_price_fresh (m : Market) (now : ℤ) : Except ErrorCode Unit :=
  if now < m.circuit_breaker_until then .error .CircuitBreaker
  else if ¬ (0 < m.last_nav) then .error .PriceNotSet
  else
    let age := now - m.last_ts
    if age < 0 then .error .ClockWentBackwards
    else if age.toNat ≤ m.price_stale_seconds then .ok ()
    else .error .PriceStale

/-- The confidence gate of `post_nav` (lib.rs lines 145-150): active only
when `max_confidence_bps > 0` and a confidence value is supplied; the
computed ratio is narrowed `as u16` before the comparison. -/
def conf_gate (m : Market) (nav : ℕ) (conf : Option ℕ) : Except ErrorCode Unit :=
  if 0 < m.max_confidence_bps then
    match conf with
    | some c =>
      match ratio_bps_u128 c (max nav 1) with
      | none => .error .MathOverflow
      | some r =>
        if u16cast r ≤ m.max_confidence_bps then .ok () else .error .OracleConfidenceTooWide
    | none => .ok ()
  else .ok ()

/-- `pub fn post_nav(ctx, nav, nav_confidence)` from lib.rs (lines
133-170), with the accounts threaded explicitly.  `signer` is the key of
the `oracle_authority` signer account.  The assignment
`market.circuit_breaker_until = now + 300` performed just before
`return err!(PriceJumpTooLarge)` is visible in the returned state, as it
is through the `&mut` borrow in Rust. -/
def post_nav_body (now : ℤ) (signer nav : ℕ) (nav_confidence : Option ℕ) (st : St) :
    Except Fail Unit × St :=
  let m := st.market
  if m.paused then (.error (.prog .MarketPaused), st)
  else if signer ≠ m.oracle_authority then (.error (.prog .Unauthorized), st)
  else if now < m.circuit_breaker_until then (.error (.prog .CircuitBreaker), st)
  else
    match conf_gate m nav nav_confidence with
    | .error e => (.error (.prog e), st)
    | .ok _ =>
      if m.last_nav ≠ 0 then
        let old := m.last_nav
        let diff := if nav > old then nav - old else old - nav
        match ratio_bps_u128 diff (max old 1) with
        | none => (.error (.prog .MathOverflow), st)
        | some j =>
          if u16cast j > m.max_nav_jump_bps then
            (.error (.prog .PriceJumpTooLarge),
              { st with market := { m with circuit_breaker_until := now + 300 } })
          else
            (.ok (), { st with market := { m with last_nav := nav, last_ts := now } })
      else
        (.ok (), { st with market := { m with last_nav := nav, last_ts := now } })

/-- The validation phase of `pub fn open_deal` (lib.rs lines 187-210):
paused, size, price freshness, notional, fees, per-side margin
requirement, effective total margin and the u16-narrowed leverage cap.
Yields `(notional_q, open_fee_total)` on success. -/
def open_deal_checks (m : Market) (now : ℤ) (size long_deposit short_deposit : ℕ) :
    Except ErrorCode (ℕ × ℕ) :=
  if m.paused then .error .MarketPaused
  else if ¬ (0 < size) then .error .ZeroSize
  else
    match ensure_price_fresh m now with
    | .error e => .error e
    | .ok _ =>
      match notional_quote size m.last_nav m.price_decimals m.quote_decimals with
      | none => .error .MathOverflow
      | some notional_q =>
        match bps notional_q m.fee_bps with
        | none => .error .MathOverflow
        | some open_fee_total =>
          let open_fee_each := open_fee_total / 2
          match bps notional_q m.initial_margin_bps with
          | none => .error .MathOverflow
          | some im_required_each =>
            if ¬ (im_required_each + open_fee_each ≤ long_deposit) then
              .error .InsufficientMargin
            else if ¬ (im_required_each + open_fee_each ≤ short_deposit) then
              .error .InsufficientMargin
            else
              let effective_total_margin := long_deposit + short_deposit - open_fee_total
              if ¬ (0 < effective_total_margin) then .error .InsufficientMargin
              else
                match ratio_bps_u128 notional_q effective_total_margin with
                | none => .error .MathOverflow
                | some r =>
                  if ¬ (u16cast r ≤ m.max_leverage_bps) then .error .LeverageTooHigh
                  else .ok (notional_q, open_fee_total)

/-- `pub fn open_deal(ctx, client_order_id, size, long_deposit, short_deposit)`
from lib.rs (lines 180-285).  The Anchor `init` constraints (which run
before the handler body) create the deal record and the two empty margin
vaults, failing when the deal account already exists; the handler then
runs `open_deal_checks`, writes the deal fields, moves the deposits from
the users' source accounts, and collects the per-side open fee (narrowed
by `try_into().unwrap()`, modelled as a panic when out of u64 range) into
the fee vault.  The cached-margin writes at lib.rs lines 268-269 read
`ctx.accounts.*_margin_vault.amount`, which is the Anchor-deserialized
snapshot taken when the vaults were created in this instruction (zero);
the handler never calls `reload()` after the transfer CPIs, so the
persisted `long_margin`/`short_margin` are 0, not the live balances. -/
def open_deal_body (now : ℤ) (long_key short_key client_order_id size long_deposit short_deposit : ℕ)
    (st : St) : Except Fail Unit × St :=
  match st.deal with
  | some _ => (.error .acctExists, st)
  | none =>
    match open_deal_checks st.market now size long_deposit short_deposit with
    | .error e => (.error (.prog e), st)
    | .ok (_, open_fee_total) =>
      let open_fee_each := open_fee_total / 2
      -- Anchor `init` zero-initializes the deal account, so
      -- `require!(!deal.is_open, AlreadyOpen)` passes; the handler then
      -- writes the deal fields and the fresh (empty) margin vaults exist.
      let d : Deal :=
        { long := long_key, short := short_key, size := size,
          entry_nav := st.market.last_nav, is_open := true,
          long_margin := 0, short_margin := 0,
          client_order_id := client_order_id }
      let st0 := { st with deal := some d, long_vault := 0, short_vault := 0 }
      -- transfer_from_user(long_source → long_margin_vault)
      if ¬ (long_deposit ≤ st0.long_source) then (.error .tokenInsufficient, st0)
      else
        let st1 := { st0 with long_source := st0.long_source - long_deposit,
                              long_vault := st0.long_vault + long_deposit }
        if ¬ (short_deposit ≤ st1.short_source) then (.error .tokenInsufficient, st1)
        else
          let st2 := { st1 with short_source := st1.short_source - short_deposit,
                                short_vault := st1.short_vault + short_deposit }
          -- open_fee_each.try_into().unwrap(): panics out of u64 range
          if ¬ (open_fee_each < U64_MOD) then (.error .panicked, st2)
          else
            -- transfer_signed(long_margin_vault → fee_vault)
            if ¬ (open_fee_each ≤ st2.long_vault) then (.error .tokenInsufficient, st2)
            else
              let st3 := { st2 with long_vault := st2.long_vault - open_fee_each,
                                    fee_vault := st2.fee_vault + open_fee_each }
              if ¬ (open_fee_each ≤ st3.short_vault) then
                (.error .tokenInsufficient, st3)
              else
                let st4 := { st3 with
                  short_vault := st3.short_vault - open_fee_each,
                  fee_vault := st3.fee_vault + open_fee_each }
                -- deal.long_margin = long_margin_vault.amount (STALE cached
                -- snapshot of the freshly-initialized vault: 0, no reload)
                let d2 := { d with long_margin := 0, short_margin := 0 }
                (.ok (), { st4 with deal := some d2 })

/-- `pub fn add_margin_long(ctx, amount)` from lib.rs (lines 288-300):
requires the deal open and the caller to be the long party (the Anchor
`has_one = long` constraint checks the same key equality as the body's
`require_keys_eq!`) and moves `amount` from the long source account into
the long margin vault.  The cache refresh at line 298 reads
`long_margin_vault.amount`, the stale instruction-entry snapshot (no
`reload()` after the transfer CPI), so the persisted cached margin is the
PRE-transfer vault balance.  The market account appears in the context
but is never read: there is no paused check. -/
def add_margin_long_body (caller amount : ℕ) (st : St) : Except Fail Unit × St :=
  match st.deal with
  | none => (.error .acctMissing, st)
  | some d =>
    if ¬ d.is_open then (.error (.prog .NotOpen), st)
    else if d.long ≠ caller then (.error (.prog .Unauthorized), st)
    else if ¬ (amount ≤ st.long_source) then (.error .tokenInsufficient, st)
    else
      (.ok (), { st with long_source := st.long_source - amount,
                         long_vault := st.long_vault + amount,
                         deal := some { d with long_margin := st.long_vault } })

/-- `pub fn add_margin_short(ctx, amount)` from lib.rs (lines 303-315);
mirror image of `add_margin_long`: no paused check, and the cache refresh
at line 313 likewise persists the stale pre-transfer vault balance. -/
def add_margin_short_body (caller amount : ℕ) (st : St) : Except Fail Unit × St :=
  match st.deal with
  | none => (.error .acctMissing, st)
  | some d =>
    if ¬ d.is_open then (.error (.prog .NotOpen), st)
    else if d.short ≠ caller then (.error (.prog .Unauthorized), st)
    else if ¬ (amount ≤ st.short_source) then (.error .tokenInsufficient, st)
    else
      (.ok (), { st with short_source := st.short_source - amount,
                         short_vault := st.short_vault + amount,
                         deal := some { d with short_margin := st.short_vault } })

/-- The settlement computation shared by `close_deal` (lib.rs lines
327-341) and `liquidate` (lines 447-453): the long payout is the clamp of
`long_vault + pnl_long` into `[0, pool]` (a u128 after the cast, hence
`toNat`), the short payout is `pool.saturating_sub(long_payout)`
(`Nat` subtraction). -/
def settle_payouts (long_amt short_amt : ℕ) (pnl_long : ℤ) : ℕ × ℕ :=
  let total_pool := long_amt + short_amt
  let desired_long := (long_amt : ℤ) + pnl_long
  let long_payout := (clamp_i128 desired_long 0 (total_pool : ℤ)).toNat
  (long_payout, total_pool - long_payout)

/-- `pub fn close_deal(ctx)` from lib.rs (lines 318-388): settles at the
current NAV and drains both vaults to the parties' payout accounts; the
drained amounts are the payouts narrowed `as u64`.
`close_signed_token_account` moves no tokens (it only reclaims rent, and
silently skips non-empty vaults), so it does not appear in the balances. -/
def close_deal_body (now : ℤ) (st : St) : Except Fail Unit × St :=
  match st.deal with
  | none => (.error .acctMissing, st)
  | some d =>
    let m := st.market
    if ¬ d.is_open then (.error (.prog .NotOpen), st)
    else if m.paused then (.error (.prog .MarketPaused), st)
    else
      match ensure_price_fresh m now with
      | .error e => (.error (.prog e), st)
      | .ok _ =>
        match pnl_quote d.size d.entry_nav m.last_nav m.price_decimals m.quote_decimals with
        | none => (.error (.prog .MathOverflow), st)
        | some pnl_long =>
          let p := settle_payouts st.long_vault st.short_vault pnl_long
          let la := u64cast p.1
          if ¬ (la ≤ st.long_vault) then (.error .tokenInsufficient, st)
          else
            let st1 := { st with long_vault := st.long_vault - la,
                                 long_payout_ata := st.long_payout_ata + la }
            let sa := u64cast p.2
            if ¬ (sa ≤ st1.short_vault) then (.error .tokenInsufficient, st1)
            else
              let st2 := { st1 with short_vault := st1.short_vault - sa,
                                    short_payout_ata := st1.short_payout_ata + sa }
              (.ok (), { st2 with deal := some { d with is_open := false } })

/-- The liquidation bounty payment of `liquidate` (lib.rs lines 418-444):
pay from the long vault first, then the short vault; the transfer from the
short vault fails when the remainder exceeds its balance.  Returns the two
vault balances after the bounty. -/
def apply_bounty (long_amt short_amt bounty : ℕ) : Except Fail (ℕ × ℕ) :=
  let take_long := min bounty long_amt
  let remaining := bounty - take_long
  if remaining ≤ short_amt then .ok (long_amt - take_long, short_amt - remaining)
  else .error .tokenInsufficient

/-- `pub fn liquidate(ctx)` from lib.rs (lines 391-504): checks
liquidatability (maintenance margin with buffer, saturating u16 add, or
the u16-narrowed leverage ratio over the cap, with `u16::MAX` when the
pool is empty) and pays the bounty (`bps(pool, liquidator_bps)` narrowed
`as u64`).  The "recompute pool after bounty" at lines 447-449 reads
`ctx.accounts.*_margin_vault.amount`, the Anchor-deserialized
instruction-entry snapshots — the handler never calls `reload()` after
the bounty CPIs — so the settlement is computed from the STALE pre-bounty
amounts, while the payout transfers execute against the real post-bounty
balances.  The depletion check at line 477 likewise reads the stale
entry snapshots. -/
def liquidate_body (now : ℤ) (st : St) : Except Fail Unit × St :=
  match st.deal with
  | none => (.error .acctMissing, st)
  | some d =>
    let m := st.market
    if ¬ d.is_open then (.error (.prog .NotOpen), st)
    else if m.paused then (.error (.prog .MarketPaused), st)
    else
      match ensure_price_fresh m now with
      | .error e => (.error (.prog e), st)
      | .ok _ =>
        match notional_quote d.size m.last_nav m.price_decimals m.quote_decimals with
        | none => (.error (.prog .MathOverflow), st)
        | some notional_q =>
          match bps notional_q (min (m.maintenance_margin_bps + m.mm_buffer_bps) (U16_MOD - 1)) with
          | none => (.error (.prog .MathOverflow), st)
          | some mm_required =>
            match pnl_quote d.size d.entry_nav m.last_nav m.price_decimals m.quote_decimals with
            | none => (.error (.prog .MathOverflow), st)
            | some pnl_long =>
              let long_eq := (st.long_vault : ℤ) + pnl_long
              let short_eq := (st.short_vault : ℤ) - pnl_long
              let pool := st.long_vault + st.short_vault
              let lev_e : Except ErrorCode ℕ :=
                if 0 < pool then
                  match ratio_bps_u128 notional_q pool with
                  | none => .error .MathOverflow
                  | some r => .ok (u16cast r)
                else .ok (U16_MOD - 1)
              match lev_e with
              | .error e => (.error (.prog e), st)
              | .ok lev_bps =>
                let over_lev := m.max_leverage_bps < lev_bps
                -- `long_eq < mm_required as i128` (wrapping u128 → i128 cast)
                if ¬ (long_eq < i128_of_u128 mm_required ∨
                      short_eq < i128_of_u128 mm_required ∨ over_lev) then
                  (.error (.prog .NotLiquidatable), st)
                else
                  match bps pool m.liquidator_bps with
                  | none => (.error (.prog .MathOverflow), st)
                  | some b =>
                    let bounty := u64cast b
                    match apply_bounty st.long_vault st.short_vault bounty with
                    | .error f => (.error f, st)
                    | .ok (l1, s1) =>
                      let stb := { st with long_vault := l1, short_vault := s1,
                                           liquidator_ata := st.liquidator_ata +
                                             (st.long_vault - l1) + (st.short_vault - s1) }
                      -- lines 447-453: `long_amt`/`short_amt` are the STALE
                      -- cached entry amounts (no reload after the bounty
                      -- CPIs), so the payouts are computed from the
                      -- pre-bounty pool
                      let p := settle_payouts st.long_vault st.short_vault pnl_long
                      let la := u64cast p.1
                      if ¬ (la ≤ stb.long_vault) then (.error .tokenInsufficient, stb)
                      else
                        let st1 := { stb with long_vault := stb.long_vault - la,
                                              long_payout_ata := stb.long_payout_ata + la }
                        let sa := u64cast p.2
                        if ¬ (sa ≤ st1.short_vault) then (.error .tokenInsufficient, st1)
                        else
                          let st2 := { st1 with short_vault := st1.short_vault - sa,
                                                short_payout_ata := st1.short_payout_ata + sa }
                          -- line 477: depletion is checked against the STALE
                          -- cached entry amounts, not the drained balances
                          let depleted := (st.long_vault == 0) || (st.short_vault == 0)
                          let st3 := { st2 with deal := some { d with is_open := false } }
                          (.ok (),
                            if depleted then { st3 with market := { st3.market with paused := true } }
                            else st3)

/-- The assessment phase of `pub fn liquidate_to_im` (lib.rs lines
511-529): open/paused/freshness checks, notional, `im_required =
bps(notional, initial_margin_bps) as i128`, PnL, both equities, and the
determination of the side under initial margin with
`deficit = (im_required - equity) as u64`.  Yields
`(deal, under_is_long, deficit, pnl_long, im_required)`. -/
def liq_im_assess (st : St) (now : ℤ) : Except Fail (Deal × Bool × ℕ × ℤ × ℤ) :=
  match st.deal with
  | none => .error .acctMissing
  | some d =>
    let m := st.market
    if ¬ d.is_open then .error (.prog .NotOpen)
    else if m.paused then .error (.prog .MarketPaused)
    else
      match ensure_price_fresh m now with
      | .error e => .error (.prog e)
      | .ok _ =>
        match notional_quote d.size m.last_nav m.price_decimals m.quote_decimals with
        | none => .error (.prog .MathOverflow)
        | some notional_q =>
          match bps notional_q m.initial_margin_bps with
          | none => .error (.prog .MathOverflow)
          | some imr =>
            let im_required : ℤ := i128_of_u128 imr
            match pnl_quote d.size d.entry_nav m.last_nav m.price_decimals m.quote_decimals with
            | none => .error (.prog .MathOverflow)
            | some pnl_long =>
              let long_eq := (st.long_vault : ℤ) + pnl_long
              let short_eq := (st.short_vault : ℤ) - pnl_long
              if long_eq < im_required then
                .ok (d, true, u64_of_i128 (im_required - long_eq), pnl_long, im_required)
              else if short_eq < im_required then
                .ok (d, false, u64_of_i128 (im_required - short_eq), pnl_long, im_required)
              else .error (.prog .NotLiquidatable)

/-- `pub fn liquidate_to_im(ctx, max_bounty_take)` from lib.rs (lines
508-566): after `liq_im_assess`, computes `bounty = bps(deficit,
liquidator_bps) as u64`, `take_total = (deficit ⊕ bounty).min(max_bounty_take)`
(saturating u64 add) and `deficit_take = take_total.saturating_sub(bounty)`;
pays `bounty` to the liquidator and `deficit_take` to the deficient
vault, both out of the healthy vault.  The cache refresh at lines 555-556
reads the vault `.amount` fields, which are the STALE instruction-entry
snapshots (no `reload()` after the transfer CPIs): the persisted cached
margins are the pre-transfer balances, and the still-under-IM recheck at
lines 559-561 therefore re-evaluates the pre-call equities — on the
reachable path one side was under IM, so every successful call pauses the
market. -/
def liquidate_to_im_body (now : ℤ) (max_bounty_take : ℕ) (st : St) : Except Fail Unit × St :=
  match liq_im_assess st now with
  | .error f => (.error f, st)
  | .ok (d, under_is_long, deficit, pnl_long, im_required) =>
    match bps deficit st.market.liquidator_bps with
    | none => (.error (.prog .MathOverflow), st)
    | some b =>
      let bounty := u64cast b
      let take_total := min (sat_add_u64 deficit bounty) max_bounty_take
      let deficit_take := take_total - bounty
      if under_is_long then
        -- from short vault: bounty → liquidator, deficit_take → long vault
        if ¬ (bounty ≤ st.short_vault) then (.error .tokenInsufficient, st)
        else
          let st1 := { st with short_vault := st.short_vault - bounty,
                               liquidator_ata := st.liquidator_ata + bounty }
          if ¬ (deficit_take ≤ st1.short_vault) then (.error .tokenInsufficient, st1)
          else
            let st2 := { st1 with short_vault := st1.short_vault - deficit_take,
                                  long_vault := st1.long_vault + deficit_take }
            -- lines 555-556: the cached margins are refreshed from the
            -- STALE entry snapshots, not the live post-transfer balances
            let d2 := { d with long_margin := st.long_vault,
                               short_margin := st.short_vault }
            let long_eq2 := (d2.long_margin : ℤ) + pnl_long
            let short_eq2 := (d2.short_margin : ℤ) - pnl_long
            let st3 := { st2 with deal := some d2 }
            (.ok (),
              if long_eq2 < im_required ∨ short_eq2 < im_required then
                { st3 with market := { st3.market with paused := true } }
              else st3)
      else
        -- from long vault: bounty → liquidator, deficit_take → short vault
        if ¬ (bounty ≤ st.long_vault) then (.error .tokenInsufficient, st)
        else
          let st1 := { st with long_vault := st.long_vault - bounty,
                               liquidator_ata := st.liquidator_ata + bounty }
          if ¬ (deficit_take ≤ st1.long_vault) then (.error .tokenInsufficient, st1)
          else
            let st2 := { st1 with long_vault := st1.long_vault - deficit_take,
                                  short_vault := st1.short_vault + deficit_take }
            -- lines 555-556: stale entry snapshots again
            let d2 := { d with long_margin := st.long_vault,
                               short_margin := st.short_vault }
            let long_eq2 := (d2.long_margin : ℤ) + pnl_long
            let short_eq2 := (d2.short_margin : ℤ) - pnl_long
            let st3 := { st2 with deal := some d2 }
            (.ok (),
              if long_eq2 < im_required ∨ short_eq2 < im_required then
                { st3 with market := { st3.market with paused := true } }
              else st3)

/-- An account passed in `ctx.remaining_accounts`: its key and whether it
signed the transaction. -/
structure SignerInfo where
  key : ℕ
  is_signer : Bool
deriving DecidableEq

/-- `fn require_multisig(m: &Market, infos: &[AccountInfo])` from lib.rs
(lines 1291-1302): for each account info that signed and whose key matches
a non-sentinel admin slot, increment `hits` (a u8, `saturating_add`);
require `hits ≥ admin_threshold`. -/
def require_multisig (m : Market) (infos : List SignerInfo) : Except ErrorCode Unit :=
  let hits := infos.foldl
    (fun h ai =>
      if ai.is_signer ∧ m.admins.any (fun a => a ≠ 0 ∧ a = ai.key) then min (h + 1) 255 else h)
    0
  if m.admin_threshold ≤ hits then .ok () else .error .NotEnoughSigners

/-- `fn require_admin_or_multisig` from lib.rs (lines 1280-1289): the
governance authority passes outright, anyone else goes through the
multisig count. -/
def require_admin_or_multisig (m : Market) (authority_key : ℕ) (remaining : List SignerInfo) :
    Except ErrorCode Unit :=
  if authority_key = m.authority then .ok ()
  else require_multisig m remaining

/-- Modelled from the spec: the specification's §4.3 authorization
predicate counts how many DISTINCT, non-sentinel admin-set members are
present among the authenticated signer set of the call.  This definition
follows the spec's words (not the code) and exists to compare the code's
occurrence count against it. -/
def distinct_admin_signer_count (m : Market) (infos : List SignerInfo) : ℕ :=
  (((infos.filter (fun ai => ai.is_signer)).map (fun ai => ai.key)).dedup.filter
    (fun k => k ≠ 0 ∧ k ∈ m.admins)).length

/-- The modelled instruction set (the operations that touch a deal, plus
NAV posting), each carrying its arguments. -/
inductive Instr where
  | postNav (now : ℤ) (signer nav : ℕ) (conf : Option ℕ)
  | openDeal (now : ℤ) (long_key short_key client_order_id size long_deposit short_deposit : ℕ)
  | addMarginLong (caller amount : ℕ)
  | addMarginShort (caller amount : ℕ)
  | closeDeal (now : ℤ)
  | liquidateDeal (now : ℤ)
  | liquidateToIm (now : ℤ) (max_bounty_take : ℕ)

/-- Dispatch an instruction to its handler body. -/
def instrBody : Instr → St → Except Fail Unit × St
  | .postNav now signer nav conf => post_nav_body now signer nav conf
  | .openDeal now lk sk cid size ld sd => open_deal_body now lk sk cid size ld sd
  | .addMarginLong caller amount => add_margin_long_body caller amount
  | .addMarginShort caller amount => add_margin_short_body caller amount
  | .closeDeal now => close_deal_body now
  | .liquidateDeal now => liquidate_body now
  | .liquidateToIm now mbt => liquidate_to_im_body now mbt

/-- Modelled from the spec: §5's all-or-nothing transactional boundary
(provided by the surrounding runtime, which is not part of src/): a failed
instruction persists none of its account writes, a successful one persists
all of them.  `runInstr` gives the persisted post-state. -/
def runInstr (i : Instr) (st : St) : St :=
  match instrBody i st with
  | (.ok _, st') => st'
  | (.error _, _) => st

/-! ### Concrete fixtures used by witnesses and counterexamples -/

/-- A base market: 6/6 decimals, no fees, fresh price at `last_nav = 1`. -/
def mBase : Market :=
  { authority := 9, oracle_authority := 7, price_decimals := 6, quote_decimals := 6,
    initial_margin_bps := 0, maintenance_margin_bps := 500, fee_bps := 0,
    liquidator_bps := 0, price_stale_seconds := 10, last_nav := 1, last_ts := 0,
    paused := false, max_leverage_bps := 30000, max_nav_jump_bps := 30000,
    max_confidence_bps := 0, circuit_breaker_until := 0, mm_buffer_bps := 100,
    admin_threshold := 1, admins := [9, 0, 0, 0, 0] }

/-- A base account state with no deal and small user balances. -/
def stBase : St :=
  { market := mBase, deal := none, long_vault := 0, short_vault := 0,
    long_source := 5, short_source := 5, fee_vault := 0,
    long_payout_ata := 0, short_payout_ata := 0, liquidator_ata := 0 }

/-- Market for the leverage-truncation scenario: `nav = 70`, cap 5000 bps. -/
def mLev : Market := { mBase with last_nav := 70, max_leverage_bps := 5000 }

/-- State for the leverage-truncation scenario. -/
def stLev : St := { stBase with market := mLev }

/-- Market for the partial-liquidation scenario: `nav = 1000`, IM 10%,
liquidator bounty 20%. -/
def mIm : Market :=
  { mBase with last_nav := 1000, initial_margin_bps := 1000, liquidator_bps := 2000 }

/-- Open deal of one unit at entry NAV 1000. -/
def dIm : Deal :=
  { long := 1, short := 2, size := 1000000, entry_nav := 1000, is_open := true,
    long_margin := 50, short_margin := 500, client_order_id := 0 }

/-- State for the partial-liquidation scenario: long equity 50 under IM 100. -/
def stIm : St :=
  { stBase with market := mIm, deal := some dIm, long_vault := 50, short_vault := 500 }

/-- Market for the settle-at-entry scenario: `nav = 5`. -/
def mClose : Market := { mBase with last_nav := 5 }

/-- Open deal at entry NAV 5 (PnL zero at the current NAV). -/
def dClose : Deal :=
  { long := 1, short := 2, size := 1000000, entry_nav := 5, is_open := true,
    long_margin := 10, short_margin := 20, client_order_id := 0 }

/-- State with an open deal and vault balances 10/20. -/
def stClose : St :=
  { stBase with market := mClose, deal := some dClose, long_vault := 10, short_vault := 20 }

/-- Market for the full-liquidation scenario: `nav = 1000`, MM 5% + 1% buffer. -/
def mLiq : Market := { mBase with last_nav := 1000 }

/-- Open deal at entry NAV 1000 (PnL zero, long equity 50 under MM 60). -/
def dLiq : Deal := { dClose with entry_nav := 1000 }

/-- State for the full-liquidation scenario. -/
def stLiq : St :=
  { stBase with market := mLiq, deal := some dLiq, long_vault := 50, short_vault := 100 }

/-- A paused market holding an open deal, with the long party funded. -/
def stPausedMargin : St :=
  { stClose with market := { mClose with paused := true }, long_source := 7 }

/-- A state whose deal is closed. -/
def stClosed : St :=
  { stClose with deal := some { dClose with is_open := false } }

/-- Market with admin set `{1}` and threshold 2. -/
def mMulti : Market := { mBase with admins := [1, 0, 0, 0, 0], admin_threshold := 2 }

/-- Market for the open-fee witness: 100% fee, zero initial margin. -/
def mFee : Market := { mBase with fee_bps := 10000 }

/-- State for the open-fee witness. -/
def stFee : St := { stBase with market := mFee }

/-- Market for the jump-rejection witness: `last_nav = 100`, jump cap 100 bps. -/
def mJump : Market := { mBase with last_nav := 100, max_nav_jump_bps := 100 }

/-- State for the jump-rejection witness. -/
def stJump : St := { stBase with market := mJump }

/-- State mirroring `stIm` with the SHORT side deficient: long vault 500
(healthy), short vault 50 (equity 50 under the IM requirement 100). -/
def stIm2 : St :=
  { stBase with market := mIm, deal := some dIm, long_vault := 500, short_vault := 50 }

/-- Market for the stale-pool liquidation scenario: `nav = 1000`,
maintenance margin saturating at the u16 cap, liquidator bounty 1 bps. -/
def mHuge : Market :=
  { mBase with last_nav := 1000, maintenance_margin_bps := 65000, mm_buffer_bps := 1000,
               liquidator_bps := 1 }

/-- Open deal of one unit entered at NAV 999 (PnL +1 at NAV 1000). -/
def dHuge : Deal :=
  { long := 1, short := 2, size := 1000000, entry_nav := 999, is_open := true,
    long_margin := 0, short_margin := 0, client_order_id := 0 }

/-- State for the stale-pool liquidation scenario: long vault at
`u64::MAX`, short vault 6000, so the pre-bounty pool exceeds 2^64 and the
long payout's `as u64` narrowing wraps to zero while the bounty-paying
liquidation still succeeds. -/
def stHuge : St :=
  { stBase with market := mHuge, deal := some dHuge,
                long_vault := 18446744073709551615, short_vault := 6000 }

/-! ### Generic lemmas -/

/-- The clamped long payout lies in `[0, pool]`. -/
theorem clamp_i128_mem (x hi : ℤ) (h : 0 ≤ hi) :
    0 ≤ clamp_i128 x 0 hi ∧ clamp_i128 x 0 hi ≤ hi := by
  unfold clamp_i128
  split
  · omega
  · split <;> omega

/-- The settlement formula conserves the pool: long payout plus short
payout is exactly the sum of the two vault balances it was given. -/
theorem settle_payouts_sum (l s : ℕ) (pnl : ℤ) :
    (settle_payouts l s pnl).1 + (settle_payouts l s pnl).2 = l + s := by
  have h := clamp_i128_mem ((l : ℤ) + pnl) ((l + s : ℕ) : ℤ) (by positivity)
  show (clamp_i128 ((l : ℤ) + pnl) 0 ((l + s : ℕ) : ℤ)).toNat +
      ((l + s) - (clamp_i128 ((l : ℤ) + pnl) 0 ((l + s : ℕ) : ℤ)).toNat) = l + s
  omega

/-- A successful instruction persists its handler's final state. -/
theorem runInstr_ok (i : Instr) (st st' : St) (h : instrBody i st = (.ok (), st')) :
    runInstr i st = st' := by
  unfold runInstr
  rw [h]

/-- A failed instruction persists no state change. -/
theorem runInstr_of_error (i : Instr) (st : St) (f : Fail)
    (h : (instrBody i st).1 = .error f) : runInstr i st = st := by
  unfold runInstr
  rcases hb : instrBody i st with ⟨r, st'⟩
  rw [hb] at h
  cases r
  · rfl
  · simp at h

/-! ### Claims -/

/-- C1 (amended): for every `close_deal` or `liquidate` call that
succeeds, the computed long payout plus the computed short payout equals
exactly the pool of the two margin-vault balances AS READ at settlement —
which in `liquidate` are the STALE Anchor-cached instruction-entry
amounts (lib.rs lines 447-449; the handler performs no `reload()` after
the bounty CPIs): the computed payouts sum to the PRE-bounty pool, and
equal the post-bounty pool only when the deducted bounty is zero.  The
long payout is the clamp of `long_vault + pnl_long` into `[0, pool]` and
the short payout is `pool - long_payout`. -/
theorem C1_settlement_conservation :
    (∀ l s pnl, (settle_payouts l s pnl).1 + (settle_payouts l s pnl).2 = l + s) ∧
    (∀ now st st' d pnl_long, close_deal_body now st = (.ok (), st') →
      st.deal = some d →
      pnl_quote d.size d.entry_nav st.market.last_nav st.market.price_decimals
          st.market.quote_decimals = some pnl_long →
      (settle_payouts st.long_vault st.short_vault pnl_long).1 +
        (settle_payouts st.long_vault st.short_vault pnl_long).2 =
        st.long_vault + st.short_vault) ∧
    (∀ now st st' d pnl_long, liquidate_body now st = (.ok (), st') →
      st.deal = some d →
      pnl_quote d.size d.entry_nav st.market.last_nav st.market.price_decimals
          st.market.quote_decimals = some pnl_long →
      (settle_payouts st.long_vault st.short_vault pnl_long).1 +
        (settle_payouts st.long_vault st.short_vault pnl_long).2 =
        st.long_vault + st.short_vault) :=
  ⟨fun l s pnl => settle_payouts_sum l s pnl,
   fun _ st _ _ pnl_long _ _ _ => settle_payouts_sum st.long_vault st.short_vault pnl_long,
   fun _ st _ _ pnl_long _ _ _ => settle_payouts_sum st.long_vault st.short_vault pnl_long⟩

/-- C1 witness: a successful `close_deal` run (PnL zero, vaults 10/20)
and a successful `liquidate` run (PnL zero, zero bounty, vaults 50/100),
each conserving the pool it was computed from. -/
theorem C1_settlement_conservation_witness :
    ((settle_payouts stClose.long_vault stClose.short_vault 0).1 +
      (settle_payouts stClose.long_vault stClose.short_vault 0).2 =
      stClose.long_vault + stClose.short_vault) ∧
    ((settle_payouts stLiq.long_vault stLiq.short_vault 0).1 +
      (settle_payouts stLiq.long_vault stLiq.short_vault 0).2 =
      stLiq.long_vault + stLiq.short_vault) :=
  ⟨C1_settlement_conservation.2.1 0 stClose ((close_deal_body 0 stClose).2) dClose 0
      rfl rfl rfl,
   C1_settlement_conservation.2.2 0 stLiq ((liquidate_body 0 stLiq).2) dLiq 0
      rfl rfl rfl⟩

/-- C1 counterexample: the claim states the computed payouts of a
successful `liquidate` sum to the pool AFTER the bounty deduction.  Here
a liquidation succeeds and actually pays a bounty of 1844674407370955 out
of the vaults (the long payout, 2^64, wraps to a zero transfer under the
`as u64` narrowing, letting both payout transfers fit the post-bounty
balances), yet the computed payouts sum to the full PRE-bounty pool —
lib.rs lines 447-449 re-read the stale cached entry amounts — which
differs from the post-bounty pool. -/
theorem C1_stale_pool_counterexample :
    (liquidate_body 0 stHuge).1 = .ok () ∧
    (liquidate_body 0 stHuge).2.liquidator_ata = stHuge.liquidator_ata + 1844674407370955 ∧
    pnl_quote dHuge.size dHuge.entry_nav mHuge.last_nav mHuge.price_decimals
      mHuge.quote_decimals = some 1 ∧
    (settle_payouts stHuge.long_vault stHuge.short_vault 1).1 +
      (settle_payouts stHuge.long_vault stHuge.short_vault 1).2 =
      stHuge.long_vault + stHuge.short_vault ∧
    stHuge.long_vault + stHuge.short_vault ≠
      stHuge.long_vault + stHuge.short_vault - 1844674407370955 :=
  ⟨rfl, rfl, rfl, rfl, by decide⟩

/-- Scaling a zero amount yields zero whenever it succeeds. -/
theorem scale_amount_zero (a b : ℕ) :
    scale_amount 0 a b = none ∨ scale_amount 0 a b = some 0 := by
  unfold scale_amount
  split
  · exact Or.inr rfl
  · split
    · cases hp : pow10_u128 (a - b) with
      | none => exact Or.inl rfl
      | some d =>
        right
        have hd : d ≠ 0 := by
          unfold pow10_u128 at hp
          split at hp
          · simp only [Option.some.injEq] at hp
            subst hp
            positivity
          · simp at hp
        simp [checked_div_u128, hd]
    · cases hp : pow10_u128 (b - a) with
      | none => exact Or.inl rfl
      | some m =>
        right
        norm_num [checked_mul_u128, U128_MOD]

/-- C6: for all valid inputs on which the PnL computation succeeds,
`pnl_quote` with equal entry and close NAV is zero, and the short side's
PnL (the negation, as `liquidate` computes it) is the exact negation of
`pnl_quote`. -/
theorem C6_pnl_zero_and_negation (size nav pd qd : ℕ)
    (h : (pnl_quote size nav nav pd qd).isSome) :
    pnl_quote size nav nav pd qd = some 0 ∧
    ∀ entry close, pnl_quote size entry close pd qd =
      (pnl_short_quote size entry close pd qd).map (fun x => -x) := by
  constructor
  · unfold pnl_quote at h ⊢
    simp only [sub_self, Int.natAbs_zero] at h ⊢
    have hm : checked_mul_u128 0 size = some 0 := by
      simp [checked_mul_u128, U128_MOD]
    rw [hm] at h ⊢
    simp only [Option.some_bind] at h ⊢
    rcases scale_amount_zero (UNIT_DECIMALS + pd) qd with hs | hs
    · rw [hs] at h; simp at h
    · rw [hs]
      simp [i128_of_u128]
  · intro entry close
    unfold pnl_short_quote
    cases pnl_quote size entry close pd qd <;> simp

/-- When the validation phase succeeds, the per-side open fee is bounded
by the checked long deposit (lib.rs line 201). -/
theorem open_deal_checks_fee_bound (m : Market) (now : ℤ) (size ld sd nq ft : ℕ)
    (h : open_deal_checks m now size ld sd = .ok (nq, ft)) : ft / 2 ≤ ld := by
  simp only [open_deal_checks] at h
  repeat' split at h
  all_goals first
    | (simp only [Except.ok.injEq, Prod.mk.injEq] at h; omega)
    | exact absurd h (by simp)

set_option maxHeartbeats 1000000 in
/-- C10: in every `open_deal` call with u64 deposit arguments, the
128-bit per-side open fee is bounded by the checked deposit once the
deposit check has passed, so the `try_into().unwrap()` narrowing at the
fee transfer never panics: no run of `open_deal_body` ends in a panic. -/
theorem C10_open_fee_never_panics (now : ℤ) (lk sk cid size ld sd : ℕ) (st : St)
    (hld : ld < U64_MOD) (hsd : sd < U64_MOD) :
    (open_deal_body now lk sk cid size ld sd st).1 ≠ .error .panicked := by
  intro hcontra
  simp only [open_deal_body] at hcontra
  split at hcontra
  · exact Fail.noConfusion (Except.error.inj hcontra)
  · split at hcontra
    · exact Fail.noConfusion (Except.error.inj hcontra)
    · rename_i nq ft heq
      have hb := open_deal_checks_fee_bound _ _ _ _ _ _ _ heq
      repeat' split at hcontra
      all_goals first
        | exact Fail.noConfusion (Except.error.inj hcontra)
        | exact Except.noConfusion hcontra
        | omega

/-- C10 witness: a concrete in-range call that cannot panic. -/
theorem C10_open_fee_never_panics_witness :
    (open_deal_body 0 1 2 0 1000000 5 5 stLev).1 ≠ .error .panicked :=
  C10_open_fee_never_panics 0 1 2 0 1000000 5 5 stLev (by decide) (by decide)

/-- C7: every `open_deal` call that reaches the deposit check with either
deposit strictly below `im_required_each + open_fee_each` fails with
`InsufficientMargin` (leaving the state untouched already at the handler
level), and a failed `open_deal` attempt persists no state — in
particular it never creates an open Deal. -/
theorem C7_open_margin_check_and_no_side_effect :
    (∀ now lk sk cid size ld sd st nq ft imr,
      st.deal = none → st.market.paused = false → 0 < size →
      ensure_price_fresh st.market now = .ok () →
      notional_quote size st.market.last_nav st.market.price_decimals
        st.market.quote_decimals = some nq →
      bps nq st.market.fee_bps = some ft →
      bps nq st.market.initial_margin_bps = some imr →
      (ld < imr + ft / 2 ∨ sd < imr + ft / 2) →
      open_deal_body now lk sk cid size ld sd st = (.error (.prog .InsufficientMargin), st)) ∧
    (∀ now lk sk cid size ld sd st f,
      (open_deal_body now lk sk cid size ld sd st).1 = .error f →
      runInstr (.openDeal now lk sk cid size ld sd) st = st) := by
  constructor
  · intro now lk sk cid size ld sd st nq ft imr hdeal hp hs hf hnq hft him hbelow
    have hchecks : open_deal_checks st.market now size ld sd = .error .InsufficientMargin := by
      rcases hbelow with hb | hb
      · have hld : ¬ (imr + ft / 2 ≤ ld) := by omega
        simp [open_deal_checks, hp, hs, hf, hnq, hft, him, hld]
      · by_cases hld : imr + ft / 2 ≤ ld
        · have hsd2 : ¬ (imr + ft / 2 ≤ sd) := by omega
          simp [open_deal_checks, hp, hs, hf, hnq, hft, him, hld, hsd2]
        · simp [open_deal_checks, hp, hs, hf, hnq, hft, him, hld]
    simp [open_deal_body, hdeal, hchecks]
  · intro now lk sk cid size ld sd st f h
    exact runInstr_of_error _ _ f h

/-- State with no deal on the 10%-IM market `mIm`. -/
def stFresh : St := { stBase with market := mIm }

/-- C7 witness: a below-margin call (deposits 0 against a required 100)
fails with `InsufficientMargin` and leaves the state unchanged. -/
theorem C7_open_margin_check_and_no_side_effect_witness :
    open_deal_body 0 1 2 0 1000000 0 0 stFresh = (.error (.prog .InsufficientMargin), stFresh) ∧
    runInstr (.openDeal 0 1 2 0 1000000 0 0) stFresh = stFresh := by
  constructor
  · exact C7_open_margin_check_and_no_side_effect.1 0 1 2 0 1000000 0 0 stFresh 1000 0 100
      rfl rfl (by decide) rfl rfl rfl rfl (by decide)
  · exact C7_open_margin_check_and_no_side_effect.2 0 1 2 0 1000000 0 0 stFresh
      (.prog .InsufficientMargin) rfl

/-- `post_nav` never touches the deal account. -/
theorem post_nav_body_deal (now : ℤ) (signer nav : ℕ) (conf : Option ℕ) (st : St) :
    ((post_nav_body now signer nav conf st).2).deal = st.deal := by
  simp only [post_nav_body]
  repeat' split
  all_goals rfl

/-- C8: the Deal open flag is a one-way state: `close_deal` and
`liquidate` on a closed Deal fail with `NotOpen` leaving the state (in
particular both vault balances) untouched, and no instruction ever
reopens a closed Deal — from any state whose deal is closed, the
persisted deal after any instruction is still that closed deal. -/
theorem C8_closed_deal_is_terminal :
    (∀ now st d, st.deal = some d → d.is_open = false →
      close_deal_body now st = (.error (.prog .NotOpen), st) ∧
      liquidate_body now st = (.error (.prog .NotOpen), st)) ∧
    (∀ i st d, st.deal = some d → d.is_open = false → (runInstr i st).deal = some d) := by
  constructor
  · intro now st d hdeal hopen
    constructor
    · simp [close_deal_body, hdeal, hopen]
    · simp [liquidate_body, hdeal, hopen]
  · intro i st d hdeal hopen
    cases i with
    | postNav now signer nav conf =>
      have hd := post_nav_body_deal now signer nav conf st
      rcases hb : post_nav_body now signer nav conf st with ⟨r, st'⟩
      have hbi : instrBody (.postNav now signer nav conf) st = (r, st') := hb
      rw [hb] at hd
      cases r with
      | error e =>
        rw [runInstr_of_error _ st e (by rw [hbi])]
        exact hdeal
      | ok a =>
        cases a
        rw [runInstr_ok _ st st' hbi, hd]
        exact hdeal
    | openDeal now lk sk cid size ld sd =>
      have h : (instrBody (.openDeal now lk sk cid size ld sd) st).1 = .error .acctExists := by
        simp [instrBody, open_deal_body, hdeal]
      rw [runInstr_of_error _ st _ h]; exact hdeal
    | addMarginLong caller amount =>
      have h : (instrBody (.addMarginLong caller amount) st).1 = .error (.prog .NotOpen) := by
        simp [instrBody, add_margin_long_body, hdeal, hopen]
      rw [runInstr_of_error _ st _ h]; exact hdeal
    | addMarginShort caller amount =>
      have h : (instrBody (.addMarginShort caller amount) st).1 = .error (.prog .NotOpen) := by
        simp [instrBody, add_margin_short_body, hdeal, hopen]
      rw [runInstr_of_error _ st _ h]; exact hdeal
    | closeDeal now =>
      have h : (instrBody (.closeDeal now) st).1 = .error (.prog .NotOpen) := by
        simp [instrBody, close_deal_body, hdeal, hopen]
      rw [runInstr_of_error _ st _ h]; exact hdeal
    | liquidateDeal now =>
      have h : (instrBody (.liquidateDeal now) st).1 = .error (.prog .NotOpen) := by
        simp [instrBody, liquidate_body, hdeal, hopen]
      rw [runInstr_of_error _ st _ h]; exact hdeal
    | liquidateToIm now mbt =>
      have h : (instrBody (.liquidateToIm now mbt) st).1 = .error (.prog .NotOpen) := by
        simp [instrBody, liquidate_to_im_body, liq_im_assess, hdeal, hopen]
      rw [runInstr_of_error _ st _ h]; exact hdeal

/-- C8 witness: on a concrete closed deal, `close_deal` fails `NotOpen`
without state change, and running `liquidate` persists the closed deal. -/
theorem C8_closed_deal_is_terminal_witness :
    (close_deal_body 0 stClosed = (.error (.prog .NotOpen), stClosed) ∧
      liquidate_body 0 stClosed = (.error (.prog .NotOpen), stClosed)) ∧
    (runInstr (.liquidateDeal 0) stClosed).deal = some { dClose with is_open := false } :=
  ⟨C8_closed_deal_is_terminal.1 0 stClosed { dClose with is_open := false } rfl rfl,
   C8_closed_deal_is_terminal.2 (.liquidateDeal 0) stClosed { dClose with is_open := false }
     rfl rfl⟩

/-- C9: when the market is paused, NAV posting, deal opening, closing and
both liquidation entry points are rejected with `MarketPaused`; but
`add_margin_long` and `add_margin_short` never read the paused flag: they
succeed and move funds into the margin vault whenever the deal is open,
the caller is the correct party and the source account covers the amount,
paused or not. -/
theorem C9_pause_gating :
    (∀ now signer nav conf st, st.market.paused = true →
      post_nav_body now signer nav conf st = (.error (.prog .MarketPaused), st)) ∧
    (∀ now lk sk cid size ld sd st, st.deal = none → st.market.paused = true →
      open_deal_body now lk sk cid size ld sd st = (.error (.prog .MarketPaused), st)) ∧
    (∀ now st d, st.deal = some d → d.is_open = true → st.market.paused = true →
      close_deal_body now st = (.error (.prog .MarketPaused), st) ∧
      liquidate_body now st = (.error (.prog .MarketPaused), st) ∧
      ∀ mbt, liquidate_to_im_body now mbt st = (.error (.prog .MarketPaused), st)) ∧
    (∀ caller amount st d, st.deal = some d → d.is_open = true → d.long = caller →
      amount ≤ st.long_source →
      (add_margin_long_body caller amount st).1 = .ok () ∧
      (add_margin_long_body caller amount st).2.long_vault = st.long_vault + amount) ∧
    (∀ caller amount st d, st.deal = some d → d.is_open = true → d.short = caller →
      amount ≤ st.short_source →
      (add_margin_short_body caller amount st).1 = .ok () ∧
      (add_margin_short_body caller amount st).2.short_vault = st.short_vault + amount) := by
  refine ⟨?_, ?_, ?_, ?_, ?_⟩
  · intro now signer nav conf st hp
    simp [post_nav_body, hp]
  · intro now lk sk cid size ld sd st hdeal hp
    simp [open_deal_body, open_deal_checks, hdeal, hp]
  · intro now st d hdeal hopen hp
    refine ⟨?_, ?_, ?_⟩
    · simp [close_deal_body, hdeal, hopen, hp]
    · simp [liquidate_body, hdeal, hopen, hp]
    · intro mbt
      simp [liquidate_to_im_body, liq_im_assess, hdeal, hopen, hp]
  · intro caller amount st d hdeal hopen hlong hamt
    constructor
    · simp [add_margin_long_body, hdeal, hopen, hlong, hamt]
    · simp [add_margin_long_body, hdeal, hopen, hlong, hamt]
  · intro caller amount st d hdeal hopen hshort hamt
    constructor
    · simp [add_margin_short_body, hdeal, hopen, hshort, hamt]
    · simp [add_margin_short_body, hdeal, hopen, hshort, hamt]

/-- C9 witness: the paused gate fires on `post_nav` of a paused market,
and `add_margin_long` succeeds on that same paused market. -/
theorem C9_pause_gating_witness :
    post_nav_body 0 7 1 none stPausedMargin = (.error (.prog .MarketPaused), stPausedMargin) ∧
    (add_margin_long_body 1 7 stPausedMargin).1 = .ok () ∧
    (add_margin_long_body 1 7 stPausedMargin).2.long_vault = stPausedMargin.long_vault + 7 :=
  ⟨C9_pause_gating.1 0 7 1 none stPausedMargin rfl,
   (C9_pause_gating.2.2.2.1 1 7 stPausedMargin dClose rfl rfl rfl (by decide)).1,
   (C9_pause_gating.2.2.2.1 1 7 stPausedMargin dClose rfl rfl rfl (by decide)).2⟩

/-- C9 counterexample: the claim asserts `add_margin_long` on a paused
market fails with `MarketPaused` and moves no funds; on this concrete
paused market the call succeeds and moves 7 tokens into the long vault. -/
theorem C9_paused_add_margin_counterexample :
    stPausedMargin.market.paused = true ∧
    (add_margin_long_body 1 7 stPausedMargin).1 = .ok () ∧
    (add_margin_long_body 1 7 stPausedMargin).2.long_vault =
      stPausedMargin.long_vault + 7 :=
  ⟨rfl, rfl, rfl⟩

/-- C3 (amended): a `post_nav` call on an unpaused market by the oracle
authority, at or past the breaker deadline and passing the confidence
gate, whose 16-bit-truncated relative NAV change (`ratio_bps` narrowed
`as u16`) exceeds `max_nav_jump_bps`, fails with `PriceJumpTooLarge`; the
handler records `circuit_breaker_until = now + 300` and leaves `last_nav`
untouched, but since the failed instruction's writes do not persist, the
stored market state is unchanged.  Any `post_nav` call made while the
current time is strictly before `circuit_breaker_until` (again on an
unpaused market by the oracle authority) fails with `CircuitBreaker`
regardless of the NAV magnitude. -/
theorem C3_jump_rejection_and_breaker_gate :
    (∀ now signer nav conf st j,
      st.market.paused = false → signer = st.market.oracle_authority →
      st.market.circuit_breaker_until ≤ now →
      conf_gate st.market nav conf = .ok () →
      st.market.last_nav ≠ 0 →
      ratio_bps_u128
        (if nav > st.market.last_nav then nav - st.market.last_nav
         else st.market.last_nav - nav) (max st.market.last_nav 1) = some j →
      st.market.max_nav_jump_bps < u16cast j →
      post_nav_body now signer nav conf st =
        (.error (.prog .PriceJumpTooLarge),
         { st with market := { st.market with circuit_breaker_until := now + 300 } }) ∧
      runInstr (.postNav now signer nav conf) st = st) ∧
    (∀ now signer nav conf st,
      st.market.paused = false → signer = st.market.oracle_authority →
      now < st.market.circuit_breaker_until →
      post_nav_body now signer nav conf st = (.error (.prog .CircuitBreaker), st)) := by
  constructor
  · intro now signer nav conf st j hp hsig hcb hconf hln hr hj
    have hcb' : ¬ (now < st.market.circuit_breaker_until) := by omega
    have hbody : post_nav_body now signer nav conf st =
        (.error (.prog .PriceJumpTooLarge),
         { st with market := { st.market with circuit_breaker_until := now + 300 } }) := by
      simp [post_nav_body, hp, hsig, hcb', hconf, hln, hr, hj]
    refine ⟨hbody, runInstr_of_error _ _ (.prog .PriceJumpTooLarge) ?_⟩
    show (post_nav_body now signer nav conf st).1 = _
    rw [hbody]
  · intro now signer nav conf st hp hsig hlt
    simp [post_nav_body, hp, hsig, hlt]

/-- C3 witness: a 200% jump against a 1% cap is rejected with
`PriceJumpTooLarge`; the persisted state is unchanged. -/
theorem C3_jump_rejection_and_breaker_gate_witness :
    post_nav_body 5 7 300 none stJump =
      (.error (.prog .PriceJumpTooLarge),
       { stJump with market := { stJump.market with circuit_breaker_until := 5 + 300 } }) ∧
    runInstr (.postNav 5 7 300 none) stJump = stJump :=
  C3_jump_rejection_and_breaker_gate.1 5 7 300 none stJump 20000
    rfl rfl (by decide) rfl (by decide) rfl (by decide)

/-- C3 counterexample: the claim states a NAV update whose relative
change exceeds `max_nav_jump_bps` fails with `PriceJumpTooLarge`; here
the relative change is 90000 bps against a 30000 bps cap, yet the update
is accepted and stored, because the code narrows the ratio `as u16`
(90000 mod 65536 = 24464 ≤ 30000). -/
theorem C3_jump_truncation_counterexample :
    stBase.market.last_nav = 1 ∧ stBase.market.max_nav_jump_bps = 30000 ∧
    ratio_bps_u128 (10 - stBase.market.last_nav) (max stBase.market.last_nav 1) =
      some 90000 ∧
    (30000 : ℕ) < 90000 ∧
    post_nav_body 5 7 10 none stBase =
      (.ok (), { stBase with market := { stBase.market with last_nav := 10, last_ts := 5 } }) :=
  ⟨rfl, rfl, rfl, by decide, rfl⟩

/-- The multisig hit counter is the saturating count (with multiplicity)
of admin-matching signer entries. -/
theorem multisig_hits_eq (m : Market) (infos : List SignerInfo) (acc : ℕ) (hacc : acc ≤ 255) :
    infos.foldl
      (fun h ai =>
        if ai.is_signer ∧ m.admins.any (fun a => a ≠ 0 ∧ a = ai.key) then min (h + 1) 255 else h)
      acc =
    min (acc + infos.countP
      (fun ai => decide (ai.is_signer ∧ m.admins.any (fun a => a ≠ 0 ∧ a = ai.key)))) 255 := by
  induction infos generalizing acc with
  | nil =>
    simp only [List.foldl_nil, List.countP_nil, Nat.add_zero]
    omega
  | cons ai l ih =>
    simp only [List.foldl_cons, List.countP_cons]
    by_cases hP : ai.is_signer ∧ m.admins.any (fun a => a ≠ 0 ∧ a = ai.key)
    · rw [if_pos hP, ih (min (acc + 1) 255) (by omega), decide_eq_true hP, if_pos rfl]
      omega
    · rw [if_neg hP, ih acc hacc, decide_eq_false hP, if_neg Bool.false_ne_true]
      omega

/-- C4 (amended): for an admin operation invoked by a caller who is not
the governance authority, authorization succeeds if and only if the
number of admin-matching signer ENTRIES in the passed account list —
counted with multiplicity and saturating at 255, not deduplicated — is at
least `admin_threshold`; otherwise the call fails with
`NotEnoughSigners`.  The same admin identity appearing twice contributes
twice. -/
theorem C4_multisig_counts_multiplicity (m : Market) (caller : ℕ) (infos : List SignerInfo)
    (hc : caller ≠ m.authority) :
    (require_admin_or_multisig m caller infos = .ok () ↔
      m.admin_threshold ≤
        min (infos.countP
          (fun ai => decide (ai.is_signer ∧ m.admins.any (fun a => a ≠ 0 ∧ a = ai.key)))) 255) ∧
    (¬ m.admin_threshold ≤
        min (infos.countP
          (fun ai => decide (ai.is_signer ∧ m.admins.any (fun a => a ≠ 0 ∧ a = ai.key)))) 255 →
      require_admin_or_multisig m caller infos = .error .NotEnoughSigners) := by
  have hfold := multisig_hits_eq m infos 0 (by omega)
  simp only [require_admin_or_multisig, require_multisig, if_neg hc, hfold, Nat.zero_add]
  by_cases h : m.admin_threshold ≤
      min (infos.countP
        (fun ai => decide (ai.is_signer ∧ m.admins.any (fun a => a ≠ 0 ∧ a = ai.key)))) 255
  · simp [h]
  · simp [h]

/-- C4 witness: one admin signature against a threshold of two is
rejected with `NotEnoughSigners`. -/
theorem C4_multisig_counts_multiplicity_witness :
    require_admin_or_multisig mMulti 5 [⟨1, true⟩] = .error .NotEnoughSigners :=
  (C4_multisig_counts_multiplicity mMulti 5 [⟨1, true⟩] (by decide)).2 (by decide)

/-- C4 counterexample: the claim requires the count of DISTINCT admin
members among the signers to reach the threshold; here one admin key
passed twice as a signer satisfies a threshold of 2 although only one
distinct admin signed. -/
theorem C4_duplicate_signer_counterexample :
    require_multisig mMulti [⟨1, true⟩, ⟨1, true⟩] = .ok () ∧
    distinct_admin_signer_count mMulti [⟨1, true⟩, ⟨1, true⟩] = 1 ∧
    mMulti.admin_threshold = 2 ∧ ¬ (2 ≤ 1) :=
  ⟨rfl, by decide, rfl, by decide⟩

/-- C5 (amended): for every `open_deal` call that passes the per-side
deposit checks, with `effective_margin = long_deposit + short_deposit -
fee_total`: if `effective_margin ≤ 0` the call fails with
`InsufficientMargin`, and if the 16-bit truncation of
`ratio_bps(notional, effective_margin)` (the code narrows the ratio
`as u16`) exceeds `max_leverage_bps` the call fails with
`LeverageTooHigh`.  Only the truncated ratio is bounded: a deal whose
untruncated ratio exceeds the cap can still be opened. -/
theorem C5_leverage_cap_truncated (now : ℤ) (lk sk cid size ld sd : ℕ) (st : St)
    (nq ft imr : ℕ)
    (hdeal : st.deal = none) (hp : st.market.paused = false) (hs : 0 < size)
    (hf : ensure_price_fresh st.market now = .ok ())
    (hnq : notional_quote size st.market.last_nav st.market.price_decimals
      st.market.quote_decimals = some nq)
    (hft : bps nq st.market.fee_bps = some ft)
    (him : bps nq st.market.initial_margin_bps = some imr)
    (hld : imr + ft / 2 ≤ ld) (hsd : imr + ft / 2 ≤ sd) :
    (ld + sd ≤ ft →
      open_deal_body now lk sk cid size ld sd st = (.error (.prog .InsufficientMargin), st)) ∧
    (∀ r, ratio_bps_u128 nq (ld + sd - ft) = some r →
      st.market.max_leverage_bps < u16cast r →
      open_deal_body now lk sk cid size ld sd st = (.error (.prog .LeverageTooHigh), st)) := by
  constructor
  · intro heff
    have h0 : ¬ (0 < ld + sd - ft) := by omega
    have hchecks : open_deal_checks st.market now size ld sd = .error .InsufficientMargin := by
      simp [open_deal_checks, hp, hs, hf, hnq, hft, him, hld, hsd, h0]
    simp [open_deal_body, hdeal, hchecks]
  · intro r hr hlev
    have h0 : 0 < ld + sd - ft := by
      rcases Nat.eq_zero_or_pos (ld + sd - ft) with h | h
      · rw [h] at hr
        cases hm : checked_mul_u128 nq 10000 <;>
          simp [ratio_bps_u128, checked_div_u128, hm] at hr
      · exact h
    have hlev' : ¬ (u16cast r ≤ st.market.max_leverage_bps) := by omega
    have hchecks : open_deal_checks st.market now size ld sd = .error .LeverageTooHigh := by
      simp [open_deal_checks, hp, hs, hf, hnq, hft, him, hld, hsd, h0, hr, hlev']
    simp [open_deal_body, hdeal, hchecks]

/-- C5 witness: with a 100% fee and exact-fee deposits the effective
margin is zero and the call fails with `InsufficientMargin`. -/
theorem C5_leverage_cap_truncated_witness :
    open_deal_body 0 1 2 0 1000000 0 0 stFee = (.error (.prog .InsufficientMargin), stFee) :=
  (C5_leverage_cap_truncated 0 1 2 0 1000000 0 0 stFee 1 1 0
    rfl rfl (by decide) rfl rfl rfl rfl (by decide) (by decide)).1 (by decide)

/-- C5 counterexample: the claim states no deal is ever opened whose
notional-to-effective-margin ratio exceeds `max_leverage_bps`; here the
true ratio is 70000 bps against a 5000 bps cap, yet the deal opens,
because the code narrows the ratio `as u16` (70000 mod 65536 = 4464).
The opened deal's live vaults hold the 5/5 deposits, while the persisted
cached margins are the stale zero snapshots of the freshly-created
vaults. -/
theorem C5_leverage_truncation_counterexample :
    ratio_bps_u128 70 10 = some 70000 ∧
    stLev.market.max_leverage_bps = 5000 ∧ (5000 : ℕ) < 70000 ∧
    (open_deal_body 0 1 2 0 1000000 5 5 stLev).1 = .ok () ∧
    (open_deal_body 0 1 2 0 1000000 5 5 stLev).2.deal =
      some { long := 1, short := 2, size := 1000000, entry_nav := 70, is_open := true,
             long_margin := 0, short_margin := 0, client_order_id := 0 } ∧
    (open_deal_body 0 1 2 0 1000000 5 5 stLev).2.long_vault = 5 ∧
    (open_deal_body 0 1 2 0 1000000 5 5 stLev).2.short_vault = 5 :=
  ⟨rfl, rfl, by decide, rfl, rfl, rfl, rfl⟩

/-- C2 (amended): in every successful `liquidate_to_im(max_bounty_take)`
call, the total amount transferred out of the healthy side's margin vault
(bounty to the liquidator plus deficit top-up) is at most
`max(bounty, max_bounty_take)` — NOT at most `max_bounty_take`: the full
bounty is paid even when it exceeds the cap, and only the deficit top-up
is reduced.  Whichever side is the deficient one, the healthy vault pays
exactly `bounty + deficit_take`, the deficient vault gains exactly
`deficit_take`, and whenever `deficit_take > 0` the deficient side's
equity after the operation is strictly greater than before. -/
theorem C2_liq_to_im_take_bounds :
    (∀ now mbt st st', liquidate_to_im_body now mbt st = (.ok (), st') →
      (st.long_vault - st'.long_vault) + (st.short_vault - st'.short_vault) ≤
        max (st'.liquidator_ata - st.liquidator_ata) mbt) ∧
    (∀ now mbt st st' d deficit pnl_long im_required b,
      liquidate_to_im_body now mbt st = (.ok (), st') →
      liq_im_assess st now = .ok (d, true, deficit, pnl_long, im_required) →
      bps deficit st.market.liquidator_bps = some b →
      st'.short_vault = st.short_vault -
        (u64cast b + (min (sat_add_u64 deficit (u64cast b)) mbt - u64cast b)) ∧
      st'.long_vault = st.long_vault +
        (min (sat_add_u64 deficit (u64cast b)) mbt - u64cast b) ∧
      (0 < min (sat_add_u64 deficit (u64cast b)) mbt - u64cast b →
        (st.long_vault : ℤ) + pnl_long < (st'.long_vault : ℤ) + pnl_long)) ∧
    (∀ now mbt st st' d deficit pnl_long im_required b,
      liquidate_to_im_body now mbt st = (.ok (), st') →
      liq_im_assess st now = .ok (d, false, deficit, pnl_long, im_required) →
      bps deficit st.market.liquidator_bps = some b →
      st'.long_vault = st.long_vault -
        (u64cast b + (min (sat_add_u64 deficit (u64cast b)) mbt - u64cast b)) ∧
      st'.short_vault = st.short_vault +
        (min (sat_add_u64 deficit (u64cast b)) mbt - u64cast b) ∧
      (0 < min (sat_add_u64 deficit (u64cast b)) mbt - u64cast b →
        (st.short_vault : ℤ) - pnl_long < (st'.short_vault : ℤ) - pnl_long)) := by
  refine ⟨?_, ?_, ?_⟩
  · intro now mbt st st' h
    simp only [liquidate_to_im_body] at h
    split at h
    · exact absurd h (by simp)
    · split at h
      · exact absurd h (by simp)
      · repeat' split at h
        all_goals first
          | (simp only [Prod.mk.injEq, Except.ok.injEq, eq_self_iff_true, true_and] at h; subst h;
             dsimp only; omega)
          | exact absurd h (by simp)
  · intro now mbt st st' d deficit pnl_long im_required b hrun hassess hb
    simp only [liquidate_to_im_body, hassess, hb, if_true] at hrun
    repeat' split at hrun
    all_goals first
      | (simp only [Prod.mk.injEq, Except.ok.injEq, eq_self_iff_true, true_and] at hrun;
         subst hrun;
         refine ⟨?_, ?_, ?_⟩ <;> dsimp only <;> omega)
      | exact absurd hrun (by simp)
  · intro now mbt st st' d deficit pnl_long im_required b hrun hassess hb
    simp only [liquidate_to_im_body, hassess, hb, Bool.false_eq_true, if_false] at hrun
    repeat' split at hrun
    all_goals first
      | (simp only [Prod.mk.injEq, Except.ok.injEq, eq_self_iff_true, true_and] at hrun;
         subst hrun;
         refine ⟨?_, ?_, ?_⟩ <;> dsimp only <;> omega)
      | exact absurd hrun (by simp)

/-- C2 witness: a successful long-deficient partial liquidation (deficit
50, bounty 10, cap 5) respecting the amended bound, with the computed
healthy-vault delta, and the mirror short-deficient run's healthy-vault
delta. -/
theorem C2_liq_to_im_take_bounds_witness :
    ((stIm.long_vault - (liquidate_to_im_body 0 5 stIm).2.long_vault) +
       (stIm.short_vault - (liquidate_to_im_body 0 5 stIm).2.short_vault) ≤
      max ((liquidate_to_im_body 0 5 stIm).2.liquidator_ata - stIm.liquidator_ata) 5) ∧
    (liquidate_to_im_body 0 5 stIm).2.short_vault =
      stIm.short_vault - (u64cast 10 + (min (sat_add_u64 50 (u64cast 10)) 5 - u64cast 10)) ∧
    (liquidate_to_im_body 0 5 stIm2).2.long_vault =
      stIm2.long_vault - (u64cast 10 + (min (sat_add_u64 50 (u64cast 10)) 5 - u64cast 10)) :=
  ⟨C2_liq_to_im_take_bounds.1 0 5 stIm ((liquidate_to_im_body 0 5 stIm).2) (by rfl),
   (C2_liq_to_im_take_bounds.2.1 0 5 stIm ((liquidate_to_im_body 0 5 stIm).2) dIm 50 0 100 10
      (by rfl) rfl rfl).1,
   (C2_liq_to_im_take_bounds.2.2 0 5 stIm2 ((liquidate_to_im_body 0 5 stIm2).2) dIm 50 0 100 10
      (by rfl) rfl rfl).1⟩

/-- C2 counterexample: the claim bounds the healthy side's total outflow
by `max_bounty_take`; here `max_bounty_take = 5`, yet the successful call
drains 10 from the healthy short vault, because the full bounty of 10 is
paid to the liquidator regardless of the cap. -/
theorem C2_bounty_exceeds_cap_counterexample :
    (liquidate_to_im_body 0 5 stIm).1 = .ok () ∧
    stIm.short_vault - (liquidate_to_im_body 0 5 stIm).2.short_vault = 10 ∧
    (5 : ℕ) < 10 :=
  ⟨rfl, rfl, by decide⟩

/-- C6 witness: a concrete PnL computation that succeeds. -/
theorem C6_pnl_zero_and_negation_witness :
    pnl_quote 1 5 5 0 0 = some 0 ∧
    ∀ entry close, pnl_quote 1 entry close 0 0 =
      (pnl_short_quote 1 entry close 0 0).map (fun x => -x) :=
  C6_pnl_zero_and_negation 1 5 0 0 (by decide)

end SSF
